import Mathlib

/-!
# vk-compute: the submission protocol and the frame loop of `src/Main.cpp`

A shallow embedding of `WindowProc` and `WinMain`.  Every call that `WinMain`
makes into the platform or the GPU backend becomes one `Call` value carrying the
argument values written in the source; a run of the program is the list of its
calls together with the way it ended.  Values that the platform hands back
(result codes, the polled messages) are inputs of the model.
-/

namespace VkCompute

/-! ## Constants of the Vulkan and Win32 headers -/

def VK_SUCCESS : Int := 0
def VK_ERROR_DEVICE_LOST : Int := -4
def VK_WHOLE_SIZE : Nat := 2 ^ 64 - 1
def VK_ACCESS_SHADER_READ_BIT : Nat := 0x20
def VK_ACCESS_SHADER_WRITE_BIT : Nat := 0x40
def VK_PIPELINE_STAGE_COMPUTE_SHADER_BIT : Nat := 0x800
def VK_PIPELINE_STAGE_ALL_GRAPHICS_BIT : Nat := 0x8000
def VK_PIPELINE_BIND_POINT_GRAPHICS : Nat := 0
def VK_PIPELINE_BIND_POINT_COMPUTE : Nat := 1
def VK_SUBPASS_CONTENTS_INLINE : Nat := 0
def VK_COMMAND_BUFFER_LEVEL_PRIMARY : Nat := 0
def VK_COMMAND_POOL_CREATE_RESET_COMMAND_BUFFER_BIT : Nat := 2
def VK_STRUCTURE_TYPE_SUBMIT_INFO : Nat := 4
def VK_STRUCTURE_TYPE_COMMAND_POOL_CREATE_INFO : Nat := 39
def VK_STRUCTURE_TYPE_COMMAND_BUFFER_ALLOCATE_INFO : Nat := 40
def VK_STRUCTURE_TYPE_COMMAND_BUFFER_BEGIN_INFO : Nat := 42
def VK_STRUCTURE_TYPE_RENDER_PASS_BEGIN_INFO : Nat := 43
def VK_STRUCTURE_TYPE_BUFFER_MEMORY_BARRIER : Nat := 44

def WM_DESTROY : Nat := 0x0002
def WM_QUIT : Nat := 0x0012
def WM_KEYDOWN : Nat := 0x0100
def WM_KEYUP : Nat := 0x0101
def VK_ESCAPE : Nat := 0x1B
def VK_OEM_CLEAR : Nat := 0xFE

/-! ## Machine integers -/

/-- Value of a 32-bit two's complement `int` holding the low 32 bits of `z`. -/
def wrapInt32 (z : Int) : Int :=
  let m := z % 2 ^ 32
  if m < 2 ^ 31 then m else m - 2 ^ 32

/-- The cast `(uint16_t)x` of an unsigned value. -/
def toUInt16 (n : Nat) : Nat := n % 2 ^ 16

/-- The cast `(u32)x` of an unsigned value. -/
def toUInt32 (n : Nat) : Nat := n % 2 ^ 32

/-! ## Handles

Handles are opaque in the source; the model names them after the variable or
field that holds them. -/

/-- The two queues held in `vk`: `vk.computeQueue` and `vk.queue`. -/
inductive Queue where
  | computeQueue
  | queue
  deriving DecidableEq, Repr

/-- Command buffers: `cmd` of the compute block, `cmd` of the acquire block, and
`cmds[swapIdx]`. -/
inductive CommandBuffer where
  | computeCmd
  | acquireCmd
  | frameCmd (swapIdx : Nat)
  deriving DecidableEq, Repr

/-- Command pools: the local `pool`, `vk.cmdPoolTransient` and `vk.cmdPool`. -/
inductive CommandPool where
  | pool
  | cmdPoolTransient
  | cmdPool
  deriving DecidableEq, Repr

/-- Buffers: `computedBuffer.handle` and `mesh.vBuff.handle`. -/
inductive Buffer where
  | computedBuffer
  | meshVBuff
  deriving DecidableEq, Repr

/-- The two `VulkanPipeline` variables: `pipeline` (compute) and
`defaultPipeline` (graphics). -/
inductive Pipeline where
  | pipeline
  | defaultPipeline
  deriving DecidableEq, Repr

/-- The fields of `vk` whose values `WinMain` reads as numbers. -/
structure Vulkan where
  computeQueueFamily : Nat
  queueFamily : Nat
  swapImagesSize : Nat
  swapExtent : Nat × Nat := (0, 0)
  renderPass : Nat := 0
  deriving DecidableEq, Repr

/-! ## Structures passed to the backend -/

structure VkBufferMemoryBarrier where
  sType : Nat
  pNextNull : Bool
  buffer : Buffer
  offset : Nat
  size : Nat
  srcQueueFamilyIndex : Nat
  dstQueueFamilyIndex : Nat
  srcAccessMask : Nat
  dstAccessMask : Nat
  deriving DecidableEq, Repr

structure VkSubmitInfo where
  sType : Nat
  pNextNull : Bool
  commandBuffers : List CommandBuffer
  signalSemaphoreCount : Nat
  waitSemaphoreCount : Nat
  deriving DecidableEq, Repr

/-- A clear value; the float literals of the source (`1.f` and zeroes) are kept
as the integers they denote. -/
inductive VkClearValue where
  | color (r g b a : Int)
  | depthStencil (depth : Int) (stencil : Nat)
  deriving DecidableEq, Repr

structure VkRenderPassBeginInfo where
  sType : Nat
  clearValueCount : Nat
  clearValues : List VkClearValue
  framebuffer : Nat
  renderAreaExtent : Nat × Nat
  renderAreaOffset : Int × Int
  renderPass : Nat
  deriving DecidableEq, Repr

/-- A window message as the main loop and `WindowProc` read it. -/
structure MSG where
  hwnd : Nat
  message : Nat
  wParam : Nat
  lParam : Int
  deriving DecidableEq, Repr

/-! ## Calls -/

/-- One call made by the program, with the argument values of the source. -/
inductive Call where
  | fopen_s
  | QueryPerformanceCounter
  | QueryPerformanceFrequency
  | RegisterClassEx
  | CreateWindowEx (width height : Nat)
  | GetSystemMetrics
  | SetWindowPos
  | ShowCursor (bShow : Bool)
  | log (level : String) (text : String)
  | createVKInstance
  | vkCreateWin32SurfaceKHR
  | initVK
  | initVKPipelineCompute (name : String) (p : Pipeline)
  | createComputeResultsBuffer (queueFamily : Nat) (size : Int) (buffer : Buffer)
  | updateStorageBuffer (descriptorSet : Pipeline) (binding : Nat) (buffer : Buffer)
  | vkCreateCommandPool (sType flags queueFamilyIndex : Nat) (out : CommandPool)
  | vkAllocateCommandBuffers (sType level : Nat) (commandPool : CommandPool) (count : Nat)
      (cmd : CommandBuffer)
  | vkBeginCommandBuffer (cmd : CommandBuffer) (sType flags : Nat)
  | vkCmdBindPipeline (cmd : CommandBuffer) (bindPoint : Nat) (p : Pipeline)
  | vkCmdBindDescriptorSets (cmd : CommandBuffer) (bindPoint : Nat) (layout : Pipeline)
      (firstSet count : Nat) (descriptorSet : Pipeline) (dynamicOffsetCount : Nat)
  | vkCmdDispatch (cmd : CommandBuffer) (x y z : Nat)
  | vkEndCommandBuffer (cmd : CommandBuffer)
  | vkQueueSubmit (q : Queue) (submitCount : Nat) (submit : VkSubmitInfo)
  | vkQueueWaitIdle (q : Queue)
  | vkCmdPipelineBarrier (cmd : CommandBuffer) (srcStageMask dstStageMask : Nat)
      (dependencyFlags memoryBarrierCount : Nat)
      (bufferMemoryBarriers : List VkBufferMemoryBarrier) (imageMemoryBarrierCount : Nat)
  | createCommandBuffers (commandPool : CommandPool) (count : Nat) (first : CommandBuffer)
  | beginCommandBuffer (cmd : CommandBuffer) (flags : Nat)
  | endCommandBuffer (cmd : CommandBuffer)
  | createTextureFromBuffer (q : Queue) (queueFamily : Nat) (commandPool : CommandPool)
      (width height size : Nat) (buffer : Buffer)
  | uploadMesh (queueFamily : Nat) (size : Nat)
  | initVKPipeline (name : String) (p : Pipeline)
  | updateCombinedImageSampler (descriptorSet : Pipeline) (binding count : Nat)
  | arrsetlen (count : Nat)
  | beginFrameCommandBuffer (cmd : CommandBuffer)
  | vkCmdBeginRenderPass (cmd : CommandBuffer) (beginInfo : VkRenderPassBeginInfo)
      (contents : Nat)
  | vkCmdBindVertexBuffers (cmd : CommandBuffer) (firstBinding bindingCount : Nat)
      (buffer : Buffer) (offsets : List Nat)
  | vkCmdDraw (cmd : CommandBuffer) (vertexCount instanceCount firstVertex firstInstance : Nat)
  | vkCmdEndRenderPass (cmd : CommandBuffer)
  | PeekMessage
  | TranslateMessage (msg : MSG)
  | DispatchMessage (msg : MSG)
  | PostQuitMessage (code : Int)
  | DefWindowProc (message wParam : Nat)
  | present (count : Nat)
  | arrfree
  deriving DecidableEq, Repr

/-- How a piece of the program ended: it fell through to the next statement,
`WinMain` returned, the process was ended by `exit`, or the polled messages ran
out while the main loop was still running. -/
inductive Control where
  | proceed
  | returned (code : Int)
  | exited (code : Int)
  | starved
  deriving DecidableEq, Repr

/-- The calls made by a piece of the program and the way it ended. -/
structure Run where
  trace : List Call
  control : Control
  deriving DecidableEq, Repr

/-- Sequential composition: the second piece runs only when the first fell
through. -/
def Run.seq (a b : Run) : Run :=
  match a.control with
  | Control.proceed => { trace := a.trace ++ b.trace, control := b.control }
  | _ => a

/-- Straight-line code: the calls are made and control falls through. -/
def calls (cs : List Call) : Run := { trace := cs, control := Control.proceed }

/-- The macro `FATAL(...)`: one log line of level FATAL, then `exit(1)`. -/
def FATAL (text : String) : Run :=
  { trace := [Call.log "FATAL" text], control := Control.exited 1 }

/-- The macro `INFO(...)`. -/
def INFO (text : String) : Run := calls [Call.log "INFO" text]

/-- The macro `CHECK(x, ...)`: `if (!x) FATAL(...)`, for a handle or atom `x`. -/
def CHECK (x : Nat) (text : String) : Run :=
  if x = 0 then FATAL text else calls []

/-- Modelled from the spec: the macro `VKCHECK` comes from `jcwk/Vulkan.cpp`,
which is not among the sources.  Following the error taxonomy of the spec
(a failing creation call is logged and the process aborts), a result other than
`VK_SUCCESS` is fatal. -/
def VKCHECK (result : Int) (text : String) : Run :=
  if result = VK_SUCCESS then calls [] else FATAL text

/-- A call statement whose returned result code is not read by the source. -/
def discard (_result : Int) (c : Call) : Run := calls [c]

/-- A block of statements run one after the other. -/
def block (rs : List Run) : Run := rs.foldr Run.seq (calls [])

/-! ## Inputs of a run -/

/-- What the platform and the backend hand back to `WinMain` before the main
loop: the error of `fopen_s`, the atom and the window handle, and the result
code of every Vulkan call of the start-up path that returns one. -/
structure Results where
  fopenError : Int
  windowClass : Nat
  window : Nat
  surfaceResult : Int
  createPoolResult : Int
  allocateResult : Int
  beginDispatchResult : Int
  endDispatchResult : Int
  dispatchSubmitResult : Int
  dispatchWaitResult : Int
  beginReleaseResult : Int
  endReleaseResult : Int
  releaseSubmitResult : Int
  releaseWaitResult : Int
  acquireSubmitResult : Int
  endFrameResult : Nat → Int

/-- One call of `PeekMessage`: the returned flag and the contents of `msg`
after the call, which the loop reads whether or not a message was retrieved. -/
structure Poll where
  messageAvailable : Bool
  msg : MSG
  deriving DecidableEq, Repr

/-! ## WinMain: start-up -/

/-- Lines 139-215: logging, the window, the Vulkan instance, the surface. -/
def prologue (r : Results) : Run :=
  if r.fopenError ≠ 0 then { trace := [Call.fopen_s], control := Control.returned 1 } else
  block [
    calls [Call.fopen_s, Call.QueryPerformanceCounter, Call.QueryPerformanceFrequency,
           Call.RegisterClassEx],
    CHECK r.windowClass "Could not create window class",
    calls [Call.CreateWindowEx 800 800],
    CHECK r.window "Could not create window",
    calls [Call.GetSystemMetrics, Call.GetSystemMetrics, Call.SetWindowPos,
           Call.ShowCursor false],
    INFO "Window created",
    calls [Call.createVKInstance],
    INFO "Vulkan instance created",
    calls [Call.vkCreateWin32SurfaceKHR],
    VKCHECK r.surfaceResult "could not create win32 surface",
    INFO "Surface created",
    calls [Call.initVK],
    INFO "Vulkan initialized" ]

def computeWidth : Int := 1920
def computeHeight : Int := 1080

/-- The initialiser `computeWidth * computeHeight * 4`, evaluated left to right
in `int`. -/
def computeSize : Int := wrapInt32 (wrapInt32 (computeWidth * computeHeight) * 4)

/-- Conversion of an `int` argument to a `uint32_t` parameter. -/
def intToUInt32 (z : Int) : Nat := (z % 2 ^ 32).toNat

/-- The variable `submit` of a block: one command buffer, no semaphores. -/
def submitInfo (cmd : CommandBuffer) : VkSubmitInfo :=
  { sType := VK_STRUCTURE_TYPE_SUBMIT_INFO, pNextNull := true, commandBuffers := [cmd],
    signalSemaphoreCount := 0, waitSemaphoreCount := 0 }

/-- The variable `barrier` of the compute block (lines 326-335). -/
def releaseBarrier (vk : Vulkan) : VkBufferMemoryBarrier :=
  { sType := VK_STRUCTURE_TYPE_BUFFER_MEMORY_BARRIER, pNextNull := true,
    buffer := Buffer.computedBuffer, offset := 0, size := VK_WHOLE_SIZE,
    srcQueueFamilyIndex := vk.computeQueueFamily, dstQueueFamilyIndex := vk.queueFamily,
    srcAccessMask := VK_ACCESS_SHADER_WRITE_BIT, dstAccessMask := 0 }

/-- The variable `barrier` of the acquire block (lines 362-371). -/
def acquireBarrier (vk : Vulkan) : VkBufferMemoryBarrier :=
  { sType := VK_STRUCTURE_TYPE_BUFFER_MEMORY_BARRIER, pNextNull := true,
    buffer := Buffer.computedBuffer, offset := 0, size := VK_WHOLE_SIZE,
    srcQueueFamilyIndex := vk.computeQueueFamily, dstQueueFamilyIndex := vk.queueFamily,
    srcAccessMask := 0, dstAccessMask := VK_ACCESS_SHADER_READ_BIT }

/-- Lines 218-359: the compute pipeline, the result buffer, the dispatch and the
release barrier.  No result code of this block is read. -/
def computePhase (vk : Vulkan) (r : Results) : Run :=
  block [
    calls [Call.initVKPipelineCompute "cs" Pipeline.pipeline,
           Call.createComputeResultsBuffer vk.computeQueueFamily computeSize
             Buffer.computedBuffer,
           Call.updateStorageBuffer Pipeline.pipeline 0 Buffer.computedBuffer],
    discard r.createPoolResult
      (Call.vkCreateCommandPool VK_STRUCTURE_TYPE_COMMAND_POOL_CREATE_INFO
        VK_COMMAND_POOL_CREATE_RESET_COMMAND_BUFFER_BIT vk.computeQueueFamily CommandPool.pool),
    discard r.allocateResult
      (Call.vkAllocateCommandBuffers VK_STRUCTURE_TYPE_COMMAND_BUFFER_ALLOCATE_INFO
        VK_COMMAND_BUFFER_LEVEL_PRIMARY CommandPool.pool 1 CommandBuffer.computeCmd),
    discard r.beginDispatchResult
      (Call.vkBeginCommandBuffer CommandBuffer.computeCmd
        VK_STRUCTURE_TYPE_COMMAND_BUFFER_BEGIN_INFO 0),
    calls [Call.vkCmdBindPipeline CommandBuffer.computeCmd VK_PIPELINE_BIND_POINT_COMPUTE
             Pipeline.pipeline,
           Call.vkCmdBindDescriptorSets CommandBuffer.computeCmd
             VK_PIPELINE_BIND_POINT_COMPUTE Pipeline.pipeline 0 1 Pipeline.pipeline 0,
           Call.vkCmdDispatch CommandBuffer.computeCmd (intToUInt32 computeWidth)
             (intToUInt32 computeHeight) 1],
    discard r.endDispatchResult (Call.vkEndCommandBuffer CommandBuffer.computeCmd),
    discard r.dispatchSubmitResult
      (Call.vkQueueSubmit Queue.computeQueue 1 (submitInfo CommandBuffer.computeCmd)),
    discard r.dispatchWaitResult (Call.vkQueueWaitIdle Queue.computeQueue),
    discard r.beginReleaseResult
      (Call.vkBeginCommandBuffer CommandBuffer.computeCmd
        VK_STRUCTURE_TYPE_COMMAND_BUFFER_BEGIN_INFO 0),
    calls [Call.vkCmdPipelineBarrier CommandBuffer.computeCmd
             VK_PIPELINE_STAGE_COMPUTE_SHADER_BIT VK_PIPELINE_STAGE_ALL_GRAPHICS_BIT
             0 0 [releaseBarrier vk] 0],
    discard r.endReleaseResult (Call.vkEndCommandBuffer CommandBuffer.computeCmd),
    discard r.releaseSubmitResult
      (Call.vkQueueSubmit Queue.computeQueue 1 (submitInfo CommandBuffer.computeCmd)),
    discard r.releaseWaitResult (Call.vkQueueWaitIdle Queue.computeQueue) ]

/-- Lines 361-409: the acquire barrier, recorded on a transient command buffer
and submitted on `vk.queue`. -/
def acquirePhase (vk : Vulkan) (r : Results) : Run :=
  block [
    calls [Call.createCommandBuffers CommandPool.cmdPoolTransient 1 CommandBuffer.acquireCmd,
           Call.beginCommandBuffer CommandBuffer.acquireCmd 0,
           Call.vkCmdPipelineBarrier CommandBuffer.acquireCmd
             VK_PIPELINE_STAGE_COMPUTE_SHADER_BIT VK_PIPELINE_STAGE_ALL_GRAPHICS_BIT
             0 0 [acquireBarrier vk] 0,
           Call.endCommandBuffer CommandBuffer.acquireCmd],
    discard r.acquireSubmitResult
      (Call.vkQueueSubmit Queue.queue 1 (submitInfo CommandBuffer.acquireCmd)) ]

/-- Lines 411-422: the texture built from the computed buffer. -/
def uploadTexture (vk : Vulkan) : Run :=
  calls [Call.createTextureFromBuffer Queue.queue vk.queueFamily CommandPool.cmdPoolTransient
           32 32 (32 * 32 * 4) Buffer.computedBuffer]

/-- The one-shot initialisation: compute, ownership transfer, texture. -/
def oneShotInit (vk : Vulkan) (r : Results) : Run :=
  block [computePhase vk r, acquirePhase vk r, uploadTexture vk]

/-! ## WinMain: the static frame command buffers -/

/-- The variable `beginInfo` of the iteration for `swapIdx`; `framebuffer` is
the index into `vk.swap.framebuffers`. -/
def frameBeginInfo (vk : Vulkan) (swapIdx : Nat) : VkRenderPassBeginInfo :=
  { sType := VK_STRUCTURE_TYPE_RENDER_PASS_BEGIN_INFO,
    clearValueCount := 2,
    clearValues := [VkClearValue.color 0 0 0 0, VkClearValue.depthStencil 1 0],
    framebuffer := swapIdx,
    renderAreaExtent := vk.swapExtent,
    renderAreaOffset := (0, 0),
    renderPass := vk.renderPass }

/-- Lines 476-526 without the check: the calls of one iteration of the
recording loop. -/
def recordFrame (vk : Vulkan) (swapIdx : Nat) : List Call :=
  [ Call.beginFrameCommandBuffer (CommandBuffer.frameCmd swapIdx),
    Call.vkCmdBeginRenderPass (CommandBuffer.frameCmd swapIdx) (frameBeginInfo vk swapIdx)
      VK_SUBPASS_CONTENTS_INLINE,
    Call.vkCmdBindPipeline (CommandBuffer.frameCmd swapIdx) VK_PIPELINE_BIND_POINT_GRAPHICS
      Pipeline.defaultPipeline,
    Call.vkCmdBindVertexBuffers (CommandBuffer.frameCmd swapIdx) 0 1 Buffer.meshVBuff [0],
    Call.vkCmdBindDescriptorSets (CommandBuffer.frameCmd swapIdx)
      VK_PIPELINE_BIND_POINT_GRAPHICS Pipeline.defaultPipeline 0 1 Pipeline.defaultPipeline 0,
    Call.vkCmdDraw (CommandBuffer.frameCmd swapIdx) 6 1 0 0,
    Call.vkCmdEndRenderPass (CommandBuffer.frameCmd swapIdx),
    Call.vkEndCommandBuffer (CommandBuffer.frameCmd swapIdx) ]

/-- The loop `for (swapIdx = 0; swapIdx < framebufferCount; swapIdx++)`, with
`remaining = framebufferCount - swapIdx` iterations still to run. -/
def recordLoop (vk : Vulkan) (r : Results) : Nat → Nat → Run
  | 0, _ => calls []
  | remaining + 1, swapIdx =>
    (calls (recordFrame vk swapIdx)).seq
      ((VKCHECK (r.endFrameResult swapIdx) "").seq (recordLoop vk r remaining (swapIdx + 1)))

/-- The declaration `u32 framebufferCount = vk.swap.images.size();`. -/
def framebufferCount (vk : Vulkan) : Nat := toUInt32 vk.swapImagesSize

/-- Lines 424-528: the quad mesh, the graphics pipeline and one command buffer
per swapchain image. -/
def recordCommandBuffers (vk : Vulkan) (r : Results) : Run :=
  block [
    calls [Call.uploadMesh vk.queueFamily ((3 + 2) * 6 * 4),
           Call.initVKPipeline "default" Pipeline.defaultPipeline,
           Call.updateCombinedImageSampler Pipeline.defaultPipeline 0 1,
           Call.arrsetlen (framebufferCount vk),
           Call.createCommandBuffers CommandPool.cmdPool (framebufferCount vk)
             (CommandBuffer.frameCmd 0)],
    recordLoop vk r (framebufferCount vk) 0 ]

/-! ## WinMain: the main loop -/

/-- The variables `done` and `errorCode`, and the calls made so far. -/
structure LoopState where
  done : Bool
  errorCode : Int
  trace : List Call
  deriving DecidableEq, Repr

/-- Where a loop stands once it has stopped consuming polls: it ran to its end
(with the polls it left unread), or the polls ran out while it was running. -/
inductive Progress where
  | completed (s : LoopState) (rest : List Poll)
  | starved (s : LoopState)
  deriving DecidableEq, Repr

/-- The three calls of the body of the `do ... while` for one poll. -/
def pumpCalls (p : Poll) : List Call :=
  [Call.PeekMessage, Call.TranslateMessage p.msg, Call.DispatchMessage p.msg]

/-- The body of the `do ... while` (lines 537-548) for one `PeekMessage`. -/
def pumpOnce (s : LoopState) (p : Poll) : LoopState :=
  { done := if p.msg.message = WM_QUIT then true else s.done,
    errorCode := if p.msg.message = WM_QUIT then wrapInt32 p.msg.wParam else s.errorCode,
    trace := s.trace ++ pumpCalls p }

/-- The loop `do ... while (!done && messageAvailable)`. -/
def pumpMessages : LoopState → List Poll → Progress
  | s, [] => Progress.starved s
  | s, p :: ps =>
    if !(pumpOnce s p).done && p.messageAvailable then pumpMessages (pumpOnce s p) ps
    else Progress.completed (pumpOnce s p) ps

/-- The statement `present(vk, cmds, 1);`. -/
def presentFrame (s : LoopState) : LoopState :=
  { s with trace := s.trace ++ [Call.present 1] }

/-- The loop `while (!done)` (lines 533-557); `fuel` bounds the number of outer
iterations. -/
def mainLoop : Nat → LoopState → List Poll → Progress
  | 0, s, _ => Progress.starved s
  | fuel + 1, s, script =>
    if s.done then Progress.completed s script
    else
      match pumpMessages s script with
      | Progress.starved s1 => Progress.starved s1
      | Progress.completed s1 rest =>
        if s1.done then Progress.completed s1 rest
        else mainLoop fuel (presentFrame s1) rest

/-- The state at line 533: `done = false`, `errorCode = 0`. -/
def loopStart : LoopState := { done := false, errorCode := 0, trace := [] }

/-- Lines 530-560: the main loop over the polled messages, then `arrfree` and
`return errorCode`.  Every outer iteration consumes a poll, so one unit of fuel
per poll (and one more) is never used up before the polls are. -/
def frameLoop (script : List Poll) : Run :=
  match mainLoop (script.length + 1) loopStart script with
  | Progress.completed s _ =>
    { trace := s.trace ++ [Call.arrfree], control := Control.returned s.errorCode }
  | Progress.starved s => { trace := s.trace, control := Control.starved }

/-- The function `WinMain`. -/
def WinMain (vk : Vulkan) (r : Results) (script : List Poll) : Run :=
  block [prologue r, oneShotInit vk r, recordCommandBuffers vk r, frameLoop script]

/-! ## WindowProc -/

/-- The global `bool keyboard[VK_OEM_CLEAR] = {}`. -/
def keyboardInit : List Bool := List.replicate VK_OEM_CLEAR false

/-- The assignment `keyboard[i] = v`; `none` when `i` is not an index of the
array of `VK_OEM_CLEAR` entries. -/
def writeKey (keyboard : List Bool) (i : Nat) (v : Bool) : Option (List Bool) :=
  if i < VK_OEM_CLEAR then some (keyboard.set i v) else none

/-- What a call of `WindowProc` did: the calls it made and the keyboard array
afterwards (`none` after a write outside the array). -/
structure Handled where
  calls : List Call
  keyboard : Option (List Bool)
  deriving DecidableEq, Repr

/-- The function `WindowProc` (lines 110-130). -/
def WindowProc (keyboard : List Bool) (message wParam : Nat) : Handled :=
  if message = WM_DESTROY then
    { calls := [Call.PostQuitMessage 0, Call.DefWindowProc message wParam],
      keyboard := some keyboard }
  else if message = WM_KEYDOWN then
    if wParam = VK_ESCAPE then
      { calls := [Call.PostQuitMessage 0, Call.DefWindowProc message wParam],
        keyboard := some keyboard }
    else
      match writeKey keyboard (toUInt16 wParam) true with
      | some kb => { calls := [Call.DefWindowProc message wParam], keyboard := some kb }
      | none => { calls := [], keyboard := none }
  else if message = WM_KEYUP then
    match writeKey keyboard (toUInt16 wParam) false with
    | some kb => { calls := [Call.DefWindowProc message wParam], keyboard := some kb }
    | none => { calls := [], keyboard := none }
  else
    { calls := [Call.DefWindowProc message wParam], keyboard := some keyboard }

/-! ## Reading a trace the way a recording backend does -/

/-- The command buffer whose recording a call starts; starting a recording
discards what the buffer held. -/
def Call.begins : Call → Option CommandBuffer
  | Call.vkBeginCommandBuffer cmd _ _ => some cmd
  | Call.beginCommandBuffer cmd _ => some cmd
  | Call.beginFrameCommandBuffer cmd => some cmd
  | _ => none

/-- The command buffer a `vkCmd...` call records into. -/
def Call.recordsInto : Call → Option CommandBuffer
  | Call.vkCmdBindPipeline cmd _ _ => some cmd
  | Call.vkCmdBindDescriptorSets cmd _ _ _ _ _ _ => some cmd
  | Call.vkCmdDispatch cmd _ _ _ => some cmd
  | Call.vkCmdPipelineBarrier cmd _ _ _ _ _ _ => some cmd
  | Call.vkCmdBeginRenderPass cmd _ _ => some cmd
  | Call.vkCmdBindVertexBuffers cmd _ _ _ _ => some cmd
  | Call.vkCmdDraw cmd _ _ _ _ => some cmd
  | Call.vkCmdEndRenderPass cmd => some cmd
  | _ => none

/-- One step of the recorder for command buffer `c`. -/
def recordStep (c : CommandBuffer) (held : List Call) (call : Call) : List Call :=
  if call.begins = some c then []
  else if call.recordsInto = some c then held ++ [call]
  else held

/-- The commands command buffer `c` holds after the calls `t`. -/
def recordedIn (t : List Call) (c : CommandBuffer) : List Call :=
  t.foldl (recordStep c) []

/-- What a queue is asked to do: run the commands of a submission, drain, or
serve a helper that reads a buffer on it. -/
inductive QueueOp where
  | submit (q : Queue) (commands : List Call)
  | waitIdle (q : Queue)
  | bufferUse (q : Queue) (buffer : Buffer)
  deriving DecidableEq, Repr

/-- The queue operation a call stands for, given the calls made before it. -/
def queueOpOf (before : List Call) : Call → List QueueOp
  | Call.vkQueueSubmit q _ submit =>
    [QueueOp.submit q ((submit.commandBuffers.map (recordedIn before)).flatten)]
  | Call.vkQueueWaitIdle q => [QueueOp.waitIdle q]
  | Call.createTextureFromBuffer q _ _ _ _ _ buffer => [QueueOp.bufferUse q buffer]
  | _ => []

/-- The queue operations of the calls `t` made after the calls `before`. -/
def queueOpsFrom : List Call → List Call → List QueueOp
  | _, [] => []
  | before, c :: rest => queueOpOf before c ++ queueOpsFrom (before ++ [c]) rest

/-- The queue operations of a trace, in order. -/
def queueOps (t : List Call) : List QueueOp := queueOpsFrom [] t

/-- The buffer barriers a recorded command carries. -/
def Call.bufferBarriers : Call → List VkBufferMemoryBarrier
  | Call.vkCmdPipelineBarrier _ _ _ _ _ bs _ => bs
  | _ => []

/-- The buffer barriers of the command buffers submitted on queue `q`. -/
def barriersOn (q : Queue) : List QueueOp → List VkBufferMemoryBarrier
  | [] => []
  | QueueOp.submit q1 commands :: rest =>
    (if q1 = q then (commands.map Call.bufferBarriers).flatten else []) ++ barriersOn q rest
  | _ :: rest => barriersOn q rest

/-- Release barriers of a trace: the buffer barriers submitted on the compute
queue. -/
def releaseBarriers (t : List Call) : List VkBufferMemoryBarrier :=
  barriersOn Queue.computeQueue (queueOps t)

/-- Acquire barriers of a trace: the buffer barriers submitted on the graphics
queue. -/
def acquireBarriers (t : List Call) : List VkBufferMemoryBarrier :=
  barriersOn Queue.queue (queueOps t)

/-- The pairing of property P1 as the spec words it: same buffer, offset and
size, and the source family of the acquire is the destination family of the
release. -/
def pairedAsStated (rel acq : VkBufferMemoryBarrier) : Bool :=
  acq.buffer = rel.buffer && acq.offset = rel.offset && acq.size = rel.size &&
    acq.srcQueueFamilyIndex = rel.dstQueueFamilyIndex

/-- The pairing the two barriers of the source satisfy: same buffer, offset and
size, and the same source and destination families on both sides. -/
def paired (rel acq : VkBufferMemoryBarrier) : Bool :=
  acq.buffer = rel.buffer && acq.offset = rel.offset && acq.size = rel.size &&
    acq.srcQueueFamilyIndex = rel.srcQueueFamilyIndex &&
    acq.dstQueueFamilyIndex = rel.dstQueueFamilyIndex

/-- The pipeline-barrier calls of a trace. -/
def pipelineBarriers (t : List Call) : List Call :=
  t.filter (fun c => match c with
    | Call.vkCmdPipelineBarrier _ _ _ _ _ _ _ => true
    | _ => false)

/-- The byte sizes passed to `createComputeResultsBuffer`. -/
def resultBufferSizes (t : List Call) : List Int :=
  t.filterMap (fun c => match c with
    | Call.createComputeResultsBuffer _ size _ => some size
    | _ => none)

/-- The group counts of the dispatches of a trace. -/
def dispatchGroups (t : List Call) : List (Nat × Nat × Nat) :=
  t.filterMap (fun c => match c with
    | Call.vkCmdDispatch _ x y z => some (x, y, z)
    | _ => none)

/-- Whether a call is a log line of level FATAL. -/
def Call.isFatal : Call → Bool
  | Call.log level _ => level == "FATAL"
  | _ => false

/-- The calls the main loop makes for a poll that is not a quit message: the
body of the drain, and `present` when the poll reported no pending message. -/
def pollCalls (p : Poll) : List Call :=
  pumpCalls p ++ (if p.messageAvailable then [] else [Call.present 1])

/-- The number of polls that reported no pending message. -/
def emptyPolls (script : List Poll) : Nat :=
  script.countP (fun p => !p.messageAvailable)

/-- Results in which every call succeeds. -/
def allSucceed : Results :=
  { fopenError := 0, windowClass := 1, window := 1, surfaceResult := VK_SUCCESS,
    createPoolResult := VK_SUCCESS, allocateResult := VK_SUCCESS,
    beginDispatchResult := VK_SUCCESS, endDispatchResult := VK_SUCCESS,
    dispatchSubmitResult := VK_SUCCESS, dispatchWaitResult := VK_SUCCESS,
    beginReleaseResult := VK_SUCCESS, endReleaseResult := VK_SUCCESS,
    releaseSubmitResult := VK_SUCCESS, releaseWaitResult := VK_SUCCESS,
    acquireSubmitResult := VK_SUCCESS, endFrameResult := fun _ => VK_SUCCESS }

/-- The recorded command `c` as it reads when recorded for swapchain image
`target`: into `cmds[target]`, and with `vk.swap.framebuffers[target]` as the
framebuffer of a render pass begin. -/
def Call.retarget (target : Nat) : Call → Call
  | Call.vkCmdBeginRenderPass _ beginInfo contents =>
    Call.vkCmdBeginRenderPass (CommandBuffer.frameCmd target)
      { beginInfo with framebuffer := target } contents
  | Call.vkCmdBindPipeline _ bindPoint p =>
    Call.vkCmdBindPipeline (CommandBuffer.frameCmd target) bindPoint p
  | Call.vkCmdBindVertexBuffers _ firstBinding bindingCount buffer offsets =>
    Call.vkCmdBindVertexBuffers (CommandBuffer.frameCmd target) firstBinding bindingCount
      buffer offsets
  | Call.vkCmdBindDescriptorSets _ bindPoint layout firstSet count descriptorSet dyn =>
    Call.vkCmdBindDescriptorSets (CommandBuffer.frameCmd target) bindPoint layout firstSet
      count descriptorSet dyn
  | Call.vkCmdDraw _ vertexCount instanceCount firstVertex firstInstance =>
    Call.vkCmdDraw (CommandBuffer.frameCmd target) vertexCount instanceCount firstVertex
      firstInstance
  | Call.vkCmdEndRenderPass _ => Call.vkCmdEndRenderPass (CommandBuffer.frameCmd target)
  | c => c

/-- The six commands held by `cmds[swapIdx]` once it is recorded. -/
def frameCommands (vk : Vulkan) (swapIdx : Nat) : List Call :=
  [ Call.vkCmdBeginRenderPass (CommandBuffer.frameCmd swapIdx) (frameBeginInfo vk swapIdx)
      VK_SUBPASS_CONTENTS_INLINE,
    Call.vkCmdBindPipeline (CommandBuffer.frameCmd swapIdx) VK_PIPELINE_BIND_POINT_GRAPHICS
      Pipeline.defaultPipeline,
    Call.vkCmdBindVertexBuffers (CommandBuffer.frameCmd swapIdx) 0 1 Buffer.meshVBuff [0],
    Call.vkCmdBindDescriptorSets (CommandBuffer.frameCmd swapIdx)
      VK_PIPELINE_BIND_POINT_GRAPHICS Pipeline.defaultPipeline 0 1 Pipeline.defaultPipeline 0,
    Call.vkCmdDraw (CommandBuffer.frameCmd swapIdx) 6 1 0 0,
    Call.vkCmdEndRenderPass (CommandBuffer.frameCmd swapIdx) ]

/-- The calls of `n` successive iterations of the recording loop, from
`swapIdx` on. -/
def recordedFrames (vk : Vulkan) (n swapIdx : Nat) : List Call :=
  ((List.range' swapIdx n).map (recordFrame vk)).flatten

/-- A retrieved `WM_CHAR` message for the escape character. -/
def charPoll : Poll :=
  { messageAvailable := true, msg := { hwnd := 1, message := 0x0102, wParam := 0x1B, lParam := 0 } }

/-- The calls of lines 139-215 when every check passes. -/
def prologueCalls : List Call :=
  [ Call.fopen_s, Call.QueryPerformanceCounter, Call.QueryPerformanceFrequency,
    Call.RegisterClassEx, Call.CreateWindowEx 800 800, Call.GetSystemMetrics,
    Call.GetSystemMetrics, Call.SetWindowPos, Call.ShowCursor false,
    Call.log "INFO" "Window created", Call.createVKInstance,
    Call.log "INFO" "Vulkan instance created", Call.vkCreateWin32SurfaceKHR,
    Call.log "INFO" "Surface created", Call.initVK, Call.log "INFO" "Vulkan initialized" ]

/-- Results in which everything succeeds except the two submissions of the
compute path, which both return `VK_ERROR_DEVICE_LOST`. -/
def failingSubmits : Results :=
  { allSucceed with
    dispatchSubmitResult := VK_ERROR_DEVICE_LOST,
    releaseSubmitResult := VK_ERROR_DEVICE_LOST }

/-- A sample configuration: compute family 1, graphics family 0, two swapchain
images. -/
def sampleVk : Vulkan := { computeQueueFamily := 1, queueFamily := 0, swapImagesSize := 2 }

/-- A retrieved key-down message for key `k`, addressed to window 1. -/
def keyDownPoll (k : Nat) : Poll :=
  { messageAvailable := true, msg := { hwnd := 1, message := WM_KEYDOWN, wParam := k, lParam := 0 } }

/-- A poll that found no pending message; `msg` still holds a key-up message. -/
def emptyPoll : Poll :=
  { messageAvailable := false, msg := { hwnd := 1, message := WM_KEYUP, wParam := 0x41, lParam := 0 } }

/-- A retrieved quit message with payload `v`. -/
def quitPoll (v : Nat) : Poll :=
  { messageAvailable := true, msg := { hwnd := 0, message := WM_QUIT, wParam := v, lParam := 0 } }

/-- The loop state after the drain of `[keyDownPoll 0x41, emptyPoll]` from
`loopStart`. -/
def sampleDrained : LoopState :=
  { done := false, errorCode := 0,
    trace := pumpCalls (keyDownPoll 0x41) ++ pumpCalls emptyPoll }

/-! # Theorems -/

theorem oneShotInit_trace (vk : Vulkan) (r : Results) :
    (oneShotInit vk r).trace =
      (computePhase vk allSucceed).trace ++ (acquirePhase vk allSucceed).trace ++
        (uploadTexture vk).trace := by
  rfl

theorem queueOps_oneShotInit (vk : Vulkan) (r : Results) :
    queueOps (oneShotInit vk r).trace =
      [ QueueOp.submit Queue.computeQueue
          [ Call.vkCmdBindPipeline CommandBuffer.computeCmd VK_PIPELINE_BIND_POINT_COMPUTE
              Pipeline.pipeline,
            Call.vkCmdBindDescriptorSets CommandBuffer.computeCmd
              VK_PIPELINE_BIND_POINT_COMPUTE Pipeline.pipeline 0 1 Pipeline.pipeline 0,
            Call.vkCmdDispatch CommandBuffer.computeCmd 1920 1080 1 ],
        QueueOp.waitIdle Queue.computeQueue,
        QueueOp.submit Queue.computeQueue
          [ Call.vkCmdPipelineBarrier CommandBuffer.computeCmd
              VK_PIPELINE_STAGE_COMPUTE_SHADER_BIT VK_PIPELINE_STAGE_ALL_GRAPHICS_BIT 0 0
              [releaseBarrier vk] 0 ],
        QueueOp.waitIdle Queue.computeQueue,
        QueueOp.submit Queue.queue
          [ Call.vkCmdPipelineBarrier CommandBuffer.acquireCmd
              VK_PIPELINE_STAGE_COMPUTE_SHADER_BIT VK_PIPELINE_STAGE_ALL_GRAPHICS_BIT 0 0
              [acquireBarrier vk] 0 ],
        QueueOp.bufferUse Queue.queue Buffer.computedBuffer ] := by
  rw [oneShotInit_trace]
  simp [computePhase, acquirePhase, uploadTexture, block, Run.seq, calls, discard,
    queueOps, queueOpsFrom, queueOpOf, recordedIn, recordStep, Call.begins,
    Call.recordsInto, submitInfo]
  decide

theorem releaseBarriers_oneShotInit (vk : Vulkan) (r : Results) :
    releaseBarriers (oneShotInit vk r).trace = [releaseBarrier vk] := by
  rw [releaseBarriers, queueOps_oneShotInit]
  simp [barriersOn, Call.bufferBarriers]

theorem acquireBarriers_oneShotInit (vk : Vulkan) (r : Results) :
    acquireBarriers (oneShotInit vk r).trace = [acquireBarrier vk] := by
  rw [acquireBarriers, queueOps_oneShotInit]
  simp [barriersOn, Call.bufferBarriers]

theorem prologue_of_proceed (r : Results) (h : (prologue r).control = Control.proceed) :
    prologue r = calls prologueCalls := by
  unfold prologue at h ⊢
  by_cases h1 : r.fopenError = 0
  · by_cases h2 : r.windowClass = 0
    · simp [h1, h2, block, Run.seq, CHECK, FATAL, calls] at h
    · by_cases h3 : r.window = 0
      · simp [h1, h2, h3, block, Run.seq, CHECK, FATAL, calls] at h
      · by_cases h4 : r.surfaceResult = VK_SUCCESS
        · simp [h1, h2, h3, h4, block, Run.seq, CHECK, VKCHECK, INFO, calls, prologueCalls]
        · simp [h1, h2, h3, h4, block, Run.seq, CHECK, VKCHECK, FATAL, INFO, calls] at h
  · simp [h1] at h

theorem queueOpsFrom_append (x : List Call) :
    ∀ (before y : List Call),
      queueOpsFrom before (x ++ y) = queueOpsFrom before x ++ queueOpsFrom (before ++ x) y := by
  induction x with
  | nil => intro before y; simp [queueOpsFrom]
  | cons c x ih =>
    intro before y
    simp [queueOpsFrom, ih, List.append_assoc]

theorem queueOpsFrom_prologue_oneShotInit (vk : Vulkan) (r : Results) :
    queueOpsFrom prologueCalls (oneShotInit vk r).trace = queueOps (oneShotInit vk r).trace := by
  rw [queueOps_oneShotInit, oneShotInit_trace]
  simp [computePhase, acquirePhase, uploadTexture, block, Run.seq, calls, discard,
    prologueCalls, queueOpsFrom, queueOpOf, recordedIn, recordStep, Call.begins,
    Call.recordsInto, submitInfo]
  decide

theorem WinMain_trace_of_prologue (vk : Vulkan) (r : Results) (script : List Poll)
    (hpro : (prologue r).control = Control.proceed) :
    ∃ rest, (WinMain vk r script).trace =
      prologueCalls ++ ((oneShotInit vk r).trace ++ rest) := by
  have hinit : (oneShotInit vk r).control = Control.proceed := rfl
  refine ⟨((recordCommandBuffers vk r).seq ((frameLoop script).seq (calls []))).trace, ?_⟩
  rw [WinMain, block]
  simp [Run.seq, prologue_of_proceed r hpro, hinit, calls]

/-- C1: read by a recording backend, the one-shot initialisation of `WinMain`
performs exactly six queue operations, in this order: the dispatch is submitted
on the compute queue, the compute queue is drained, the release barrier is
submitted on the compute queue, the compute queue is drained again, the acquire
barrier is submitted on the graphics queue, and only then the computed buffer is
used on the graphics queue by `createTextureFromBuffer`.  When the window and
the surface are created, these six are the first queue operations of the whole
run of `WinMain`. -/
theorem oneShotInit_queue_order (vk : Vulkan) (r : Results) (script : List Poll)
    (hpro : (prologue r).control = Control.proceed) :
    (oneShotInit vk r).control = Control.proceed ∧
    queueOps (oneShotInit vk r).trace =
      [ QueueOp.submit Queue.computeQueue
          [ Call.vkCmdBindPipeline CommandBuffer.computeCmd VK_PIPELINE_BIND_POINT_COMPUTE
              Pipeline.pipeline,
            Call.vkCmdBindDescriptorSets CommandBuffer.computeCmd
              VK_PIPELINE_BIND_POINT_COMPUTE Pipeline.pipeline 0 1 Pipeline.pipeline 0,
            Call.vkCmdDispatch CommandBuffer.computeCmd 1920 1080 1 ],
        QueueOp.waitIdle Queue.computeQueue,
        QueueOp.submit Queue.computeQueue
          [ Call.vkCmdPipelineBarrier CommandBuffer.computeCmd
              VK_PIPELINE_STAGE_COMPUTE_SHADER_BIT VK_PIPELINE_STAGE_ALL_GRAPHICS_BIT 0 0
              [releaseBarrier vk] 0 ],
        QueueOp.waitIdle Queue.computeQueue,
        QueueOp.submit Queue.queue
          [ Call.vkCmdPipelineBarrier CommandBuffer.acquireCmd
              VK_PIPELINE_STAGE_COMPUTE_SHADER_BIT VK_PIPELINE_STAGE_ALL_GRAPHICS_BIT 0 0
              [acquireBarrier vk] 0 ],
        QueueOp.bufferUse Queue.queue Buffer.computedBuffer ] ∧
    ∃ later, queueOps (WinMain vk r script).trace =
      queueOps (oneShotInit vk r).trace ++ later := by
  refine ⟨rfl, queueOps_oneShotInit vk r, ?_⟩
  obtain ⟨rest, hrest⟩ := WinMain_trace_of_prologue vk r script hpro
  refine ⟨queueOpsFrom (prologueCalls ++ (oneShotInit vk r).trace) rest, ?_⟩
  have h0 : queueOpsFrom [] prologueCalls = [] := by
    simp [prologueCalls, queueOpsFrom, queueOpOf]
  rw [hrest, queueOps, queueOpsFrom_append, queueOpsFrom_append, h0,
    List.nil_append, List.nil_append, queueOpsFrom_prologue_oneShotInit]

theorem oneShotInit_queue_order_witness :
    (prologue allSucceed).control = Control.proceed ∧
    (queueOps (oneShotInit sampleVk allSucceed).trace).length = 6 ∧
    ∃ later, queueOps (WinMain sampleVk allSucceed [quitPoll 0]).trace =
      queueOps (oneShotInit sampleVk allSucceed).trace ++ later :=
  ⟨rfl,
    by rw [(oneShotInit_queue_order sampleVk allSucceed [quitPoll 0] rfl).2.1]; rfl,
    (oneShotInit_queue_order sampleVk allSucceed [quitPoll 0] rfl).2.2⟩

/-- C2: the one-shot initialisation records exactly two pipeline barriers, both
with stages compute-shader to all-graphics.  The first, on the compute command
buffer, carries the release barrier: source access shader-write, destination
access 0, source family the compute family, destination family the graphics
family.  The second, on the graphics command buffer, carries the acquire
barrier, which is the release barrier with the access masks replaced by source
access 0 and destination access shader-read. -/
theorem barrier_fields (vk : Vulkan) (r : Results) :
    pipelineBarriers (oneShotInit vk r).trace =
      [ Call.vkCmdPipelineBarrier CommandBuffer.computeCmd
          VK_PIPELINE_STAGE_COMPUTE_SHADER_BIT VK_PIPELINE_STAGE_ALL_GRAPHICS_BIT 0 0
          [ { sType := VK_STRUCTURE_TYPE_BUFFER_MEMORY_BARRIER, pNextNull := true,
              buffer := Buffer.computedBuffer, offset := 0, size := VK_WHOLE_SIZE,
              srcQueueFamilyIndex := vk.computeQueueFamily,
              dstQueueFamilyIndex := vk.queueFamily,
              srcAccessMask := VK_ACCESS_SHADER_WRITE_BIT, dstAccessMask := 0 } ] 0,
        Call.vkCmdPipelineBarrier CommandBuffer.acquireCmd
          VK_PIPELINE_STAGE_COMPUTE_SHADER_BIT VK_PIPELINE_STAGE_ALL_GRAPHICS_BIT 0 0
          [ { sType := VK_STRUCTURE_TYPE_BUFFER_MEMORY_BARRIER, pNextNull := true,
              buffer := Buffer.computedBuffer, offset := 0, size := VK_WHOLE_SIZE,
              srcQueueFamilyIndex := vk.computeQueueFamily,
              dstQueueFamilyIndex := vk.queueFamily,
              srcAccessMask := 0, dstAccessMask := VK_ACCESS_SHADER_READ_BIT } ] 0 ] ∧
    acquireBarrier vk =
      { releaseBarrier vk with
        srcAccessMask := 0, dstAccessMask := VK_ACCESS_SHADER_READ_BIT } := by
  constructor
  · rw [oneShotInit_trace]
    simp [computePhase, acquirePhase, uploadTexture, block, Run.seq, calls, discard,
      pipelineBarriers, releaseBarrier, acquireBarrier]
  · rfl

/-- C3, as stated, fails: with compute family 1 and graphics family 0 the
release barrier has no acquire barrier whose source family is the destination
family of the release. -/
theorem pairing_as_stated_fails :
    ¬ (∀ rel ∈ releaseBarriers
          (oneShotInit { computeQueueFamily := 1, queueFamily := 0, swapImagesSize := 2 }
            allSucceed).trace,
        (acquireBarriers
          (oneShotInit { computeQueueFamily := 1, queueFamily := 0, swapImagesSize := 2 }
            allSucceed).trace).countP (pairedAsStated rel) = 1) := by
  rw [releaseBarriers_oneShotInit, acquireBarriers_oneShotInit]
  simp [pairedAsStated, releaseBarrier, acquireBarrier]

/-- C3, amended: for every pair of compute and graphics family identifiers, the
trace has one release barrier and one acquire barrier; each release barrier has
exactly one acquire barrier on the same buffer, offset and size with the same
source family and the same destination family, and each acquire barrier has
exactly one such release barrier. -/
theorem barrier_pairing (vk : Vulkan) (r : Results) :
    (releaseBarriers (oneShotInit vk r).trace).length = 1 ∧
    (acquireBarriers (oneShotInit vk r).trace).length = 1 ∧
    (∀ rel ∈ releaseBarriers (oneShotInit vk r).trace,
      (acquireBarriers (oneShotInit vk r).trace).countP (paired rel) = 1) ∧
    (∀ acq ∈ acquireBarriers (oneShotInit vk r).trace,
      (releaseBarriers (oneShotInit vk r).trace).countP (fun rel => paired rel acq) = 1) := by
  rw [releaseBarriers_oneShotInit, acquireBarriers_oneShotInit]
  simp [paired, releaseBarrier, acquireBarrier]

/-- C4: `computeSize` is 1920 * 1080 * 1 * 4 = 8294400, both products of its
initialiser stay inside the range of a 32-bit `int`, the only call of
`createComputeResultsBuffer` receives that size, and the only dispatch is
recorded with the group counts (1920, 1080, 1) of the same constants. -/
theorem computeSize_consistent (vk : Vulkan) (r : Results) :
    computeSize = 8294400 ∧
    computeSize = computeWidth * computeHeight * 1 * 4 ∧
    (-(2 : Int) ^ 31 ≤ computeWidth * computeHeight ∧
      computeWidth * computeHeight < 2 ^ 31) ∧
    (-(2 : Int) ^ 31 ≤ computeWidth * computeHeight * 4 ∧
      computeWidth * computeHeight * 4 < 2 ^ 31) ∧
    resultBufferSizes (oneShotInit vk r).trace = [computeSize] ∧
    dispatchGroups (oneShotInit vk r).trace =
      [(computeWidth.toNat, computeHeight.toNat, 1)] ∧
    dispatchGroups (oneShotInit vk r).trace = [(1920, 1080, 1)] := by
  refine ⟨by decide, by decide, by decide, by decide, ?_, ?_, ?_⟩
  all_goals
    rw [oneShotInit_trace]
    simp [computePhase, acquirePhase, uploadTexture, block, Run.seq, calls, discard,
      resultBufferSizes, dispatchGroups]
    try decide

/-! ## The main loop -/

theorem pumpOnce_done_of_quit (s : LoopState) (p : Poll) (h : p.msg.message = WM_QUIT) :
    pumpOnce s p =
      { done := true, errorCode := wrapInt32 p.msg.wParam, trace := s.trace ++ pumpCalls p } := by
  simp [pumpOnce, h]

theorem pumpOnce_of_not_quit (s : LoopState) (p : Poll) (h : p.msg.message ≠ WM_QUIT) :
    pumpOnce s p = { s with trace := s.trace ++ pumpCalls p } := by
  simp [pumpOnce, h]

theorem mainLoop_cons_quit (fuel : Nat) (s : LoopState) (p : Poll) (ps : List Poll)
    (hs : s.done = false) (h : p.msg.message = WM_QUIT) :
    mainLoop (fuel + 1) s (p :: ps) =
      Progress.completed
        { done := true, errorCode := wrapInt32 p.msg.wParam, trace := s.trace ++ pumpCalls p }
        ps := by
  simp [mainLoop, hs, pumpMessages, pumpOnce_done_of_quit s p h]

theorem mainLoop_cons_available (fuel : Nat) (s : LoopState) (p : Poll) (ps : List Poll)
    (hs : s.done = false) (h : p.msg.message ≠ WM_QUIT) (ha : p.messageAvailable = true) :
    mainLoop (fuel + 1) s (p :: ps) =
      mainLoop (fuel + 1) { s with trace := s.trace ++ pumpCalls p } ps := by
  simp [mainLoop, hs, pumpMessages, pumpOnce_of_not_quit s p h, ha]

theorem mainLoop_cons_empty (fuel : Nat) (s : LoopState) (p : Poll) (ps : List Poll)
    (hs : s.done = false) (h : p.msg.message ≠ WM_QUIT) (ha : p.messageAvailable = false) :
    mainLoop (fuel + 1) s (p :: ps) =
      mainLoop fuel { s with trace := s.trace ++ pumpCalls p ++ [Call.present 1] } ps := by
  simp [mainLoop, hs, pumpMessages, pumpOnce_of_not_quit s p h, ha, presentFrame]

/-- The run of the main loop up to the first quit message. -/
theorem mainLoop_to_quit (pre : List Poll) :
    ∀ (fuel : Nat) (s : LoopState) (q : Poll) (rest : List Poll),
      s.done = false → (∀ p ∈ pre, p.msg.message ≠ WM_QUIT) → q.msg.message = WM_QUIT →
      emptyPolls pre < fuel →
      mainLoop fuel s (pre ++ q :: rest) =
        Progress.completed
          { done := true, errorCode := wrapInt32 q.msg.wParam,
            trace := s.trace ++ (pre.map pollCalls).flatten ++ pumpCalls q } rest := by
  induction pre with
  | nil =>
    intro fuel s q rest hs _ hq hf
    obtain ⟨f, rfl⟩ : ∃ f, fuel = f + 1 := ⟨fuel - 1, by omega⟩
    simpa using mainLoop_cons_quit f s q rest hs hq
  | cons p pre ih =>
    intro fuel s q rest hs hpre hq hf
    obtain ⟨f, rfl⟩ : ∃ f, fuel = f + 1 := ⟨fuel - 1, by omega⟩
    have hp : p.msg.message ≠ WM_QUIT := hpre p (List.mem_cons_self _ _)
    have hpre1 : ∀ x ∈ pre, x.msg.message ≠ WM_QUIT :=
      fun x hx => hpre x (List.mem_cons_of_mem _ hx)
    cases ha : p.messageAvailable with
    | true =>
      have hf1 : emptyPolls pre < f + 1 := by
        simpa [emptyPolls, List.countP_cons, ha] using hf
      rw [List.cons_append, mainLoop_cons_available f s p _ hs hp ha,
        ih (f + 1) _ q rest (by exact hs) hpre1 hq hf1]
      simp [pollCalls, ha, List.append_assoc]
    | false =>
      have hf1 : emptyPolls pre < f := by
        have : emptyPolls pre + 1 < f + 1 := by
          simpa [emptyPolls, List.countP_cons, ha] using hf
        omega
      rw [List.cons_append, mainLoop_cons_empty f s p _ hs hp ha,
        ih f _ q rest (by exact hs) hpre1 hq hf1]
      simp [pollCalls, ha, List.append_assoc]

theorem emptyPolls_le_length (script : List Poll) : emptyPolls script ≤ script.length := by
  unfold emptyPolls
  exact List.countP_le_length _


theorem prologue_allSucceed : (prologue allSucceed).control = Control.proceed := by
  rfl

theorem frameLoop_to_quit (pre : List Poll) (q : Poll) (rest : List Poll)
    (hpre : ∀ p ∈ pre, p.msg.message ≠ WM_QUIT) (hq : q.msg.message = WM_QUIT) :
    frameLoop (pre ++ q :: rest) =
      { trace := (pre.map pollCalls).flatten ++ pumpCalls q ++ [Call.arrfree],
        control := Control.returned (wrapInt32 q.msg.wParam) } := by
  have hf : emptyPolls pre < (pre ++ q :: rest).length + 1 := by
    have := emptyPolls_le_length pre
    simp only [List.length_append, List.length_cons]
    omega
  unfold frameLoop
  rw [mainLoop_to_quit pre _ loopStart q rest rfl hpre hq hf]
  simp [loopStart]

theorem WinMain_of_proceed (vk : Vulkan) (r : Results) (script : List Poll)
    (hpro : (prologue r).control = Control.proceed)
    (hrec : (recordCommandBuffers vk r).control = Control.proceed) :
    WinMain vk r script =
      { trace := (prologue r).trace ++ ((oneShotInit vk r).trace ++
          ((recordCommandBuffers vk r).trace ++ (frameLoop script).trace)),
        control := (frameLoop script).control } := by
  have hinit : (oneShotInit vk r).control = Control.proceed := rfl
  simp [WinMain, block, Run.seq, hpro, hrec, hinit, calls]
  cases h : (frameLoop script).control <;> simp [h]

theorem WinMain_returns_quit_payload (vk : Vulkan) (r : Results) (pre : List Poll) (q : Poll)
    (rest : List Poll)
    (hpro : (prologue r).control = Control.proceed)
    (hrec : (recordCommandBuffers vk r).control = Control.proceed)
    (hpre : ∀ p ∈ pre, p.msg.message ≠ WM_QUIT) (hq : q.msg.message = WM_QUIT) :
    (WinMain vk r (pre ++ q :: rest)).control = Control.returned (wrapInt32 q.msg.wParam) := by
  rw [WinMain_of_proceed vk r _ hpro hrec, frameLoop_to_quit pre q rest hpre hq]

theorem wrapInt32_of_lt (v : Nat) (h : v < 2 ^ 31) : wrapInt32 v = v := by
  unfold wrapInt32
  have h1 : ((v : Int) % 2 ^ 32) = v := by
    apply Int.emod_eq_of_lt <;> omega
  simp only [h1]
  split
  · rfl
  · omega

theorem recordCommandBuffers_sample :
    (recordCommandBuffers sampleVk allSucceed).control = Control.proceed := by
  simp [recordCommandBuffers, framebufferCount, toUInt32, sampleVk, recordLoop, block,
    Run.seq, calls, VKCHECK, allSucceed]

/-- C5, as stated, fails: a quit message with payload 2147483648 makes `WinMain`
return -2147483648, not the payload. -/
theorem exit_code_truncated :
    (WinMain sampleVk allSucceed [quitPoll 2147483648]).control =
        Control.returned (-2147483648) ∧
    (WinMain sampleVk allSucceed [quitPoll 2147483648]).control ≠
        Control.returned ((2147483648 : Nat) : Int) := by
  have h := WinMain_returns_quit_payload sampleVk allSucceed [] (quitPoll 2147483648) []
    prologue_allSucceed recordCommandBuffers_sample (by simp) rfl
  have hw : wrapInt32 ((quitPoll 2147483648).msg.wParam : Int) = -2147483648 := by decide
  rw [hw] at h
  refine ⟨h, ?_⟩
  rw [List.nil_append] at h
  rw [h]
  decide

/-- C5, amended: when the start-up of `WinMain` falls through to the main loop
and the first quit message among the polled messages carries payload `V`, the
loop ends and `WinMain` returns `(int)V`, the low 32 bits of `V` read as a
two's complement `int`; that is `V` itself whenever `V < 2^31`. -/
theorem exit_code_propagation (vk : Vulkan) (r : Results) (pre : List Poll) (q : Poll)
    (rest : List Poll) (V : Nat)
    (hpro : (prologue r).control = Control.proceed)
    (hrec : (recordCommandBuffers vk r).control = Control.proceed)
    (hpre : ∀ p ∈ pre, p.msg.message ≠ WM_QUIT)
    (hq : q.msg.message = WM_QUIT) (hV : q.msg.wParam = V) :
    (WinMain vk r (pre ++ q :: rest)).control = Control.returned (wrapInt32 V) ∧
    (V < 2 ^ 31 → (WinMain vk r (pre ++ q :: rest)).control = Control.returned V) := by
  have h := WinMain_returns_quit_payload vk r pre q rest hpro hrec hpre hq
  rw [hV] at h
  refine ⟨h, fun hlt => ?_⟩
  rw [h, wrapInt32_of_lt V hlt]

theorem exit_code_propagation_witness :
    (WinMain sampleVk allSucceed ([keyDownPoll 0x41, emptyPoll] ++ quitPoll 7 :: [])).control =
        Control.returned (wrapInt32 (7 : Nat)) ∧
    ((7 : Nat) < 2 ^ 31 →
      (WinMain sampleVk allSucceed ([keyDownPoll 0x41, emptyPoll] ++ quitPoll 7 :: [])).control =
        Control.returned (7 : Nat)) :=
  exit_code_propagation sampleVk allSucceed [keyDownPoll 0x41, emptyPoll] (quitPoll 7) [] 7
    prologue_allSucceed recordCommandBuffers_sample (by decide) rfl rfl

theorem pumpMessages_completed (script : List Poll) :
    ∀ (s s1 : LoopState) (rest : List Poll),
      s.done = false → pumpMessages s script = Progress.completed s1 rest →
      ∃ consumed last, script = consumed ++ last :: rest ∧
        s1.trace = s.trace ++ ((consumed ++ [last]).map pumpCalls).flatten ∧
        (s1.done = false ↔
          (last.messageAvailable = false ∧
            ∀ p ∈ consumed ++ [last], p.msg.message ≠ WM_QUIT)) := by
  induction script with
  | nil => intro s s1 rest _ h; simp [pumpMessages] at h
  | cons p ps ih =>
    intro s s1 rest hs h
    by_cases hq : p.msg.message = WM_QUIT
    · simp [pumpMessages, pumpOnce_done_of_quit s p hq] at h
      obtain ⟨h1, h2⟩ := h
      subst h1; subst h2
      exact ⟨[], p, rfl, by simp, by simp [hq]⟩
    · cases ha : p.messageAvailable with
      | false =>
        simp [pumpMessages, pumpOnce_of_not_quit s p hq, ha] at h
        obtain ⟨h1, h2⟩ := h
        subst h1; subst h2
        exact ⟨[], p, rfl, by simp, by simp [hq, hs, ha]⟩
      | true =>
        simp [pumpMessages, pumpOnce_of_not_quit s p hq, ha, hs] at h
        obtain ⟨consumed, last, hsplit, htrace, hiff⟩ := ih _ s1 rest rfl h
        refine ⟨p :: consumed, last, by simp [hsplit], ?_, ?_⟩
        · simp [htrace, List.append_assoc]
        · simp only [List.cons_append, List.forall_mem_cons, hiff]
          constructor
          · rintro ⟨h1, h2⟩; exact ⟨h1, hq, h2⟩
          · rintro ⟨h1, _, h2⟩; exact ⟨h1, h2⟩

/-- C7: in an iteration of the main loop whose message drain ran to its end, the
drain made no `present` call, and it left `done` false exactly when its last
poll reported no pending message and none of its polls was a quit message.  In
that case the iteration calls `present` once and the loop goes on; otherwise a
quit message was observed, and the loop stops there without calling `present`. -/
theorem present_iff_drained (fuel : Nat) (s s1 : LoopState) (script rest : List Poll)
    (hs : s.done = false) (hd : pumpMessages s script = Progress.completed s1 rest) :
    ∃ consumed last, script = consumed ++ last :: rest ∧
      s1.trace = s.trace ++ ((consumed ++ [last]).map pumpCalls).flatten ∧
      (s1.done = false ↔
        (last.messageAvailable = false ∧
          ∀ p ∈ consumed ++ [last], p.msg.message ≠ WM_QUIT)) ∧
      (s1.done = false →
        mainLoop (fuel + 1) s script =
          mainLoop fuel { s1 with trace := s1.trace ++ [Call.present 1] } rest) ∧
      (s1.done = true → mainLoop (fuel + 1) s script = Progress.completed s1 rest) := by
  obtain ⟨consumed, last, hsplit, htrace, hiff⟩ := pumpMessages_completed script s s1 rest hs hd
  refine ⟨consumed, last, hsplit, htrace, hiff, ?_, ?_⟩
  · intro h1
    simp [mainLoop, hs, hd, h1, presentFrame]
  · intro h1
    simp [mainLoop, hs, hd, h1]

theorem present_iff_drained_witness :
    loopStart.done = false ∧
    pumpMessages loopStart [keyDownPoll 0x41, emptyPoll, quitPoll 0] =
      Progress.completed sampleDrained [quitPoll 0] ∧
    ∃ consumed last,
      [keyDownPoll 0x41, emptyPoll, quitPoll 0] = consumed ++ last :: [quitPoll 0] ∧
      sampleDrained.trace = loopStart.trace ++ ((consumed ++ [last]).map pumpCalls).flatten ∧
      (sampleDrained.done = false ↔
        (last.messageAvailable = false ∧
          ∀ p ∈ consumed ++ [last], p.msg.message ≠ WM_QUIT)) ∧
      (sampleDrained.done = false →
        mainLoop (0 + 1) loopStart [keyDownPoll 0x41, emptyPoll, quitPoll 0] =
          mainLoop 0 { sampleDrained with trace := sampleDrained.trace ++ [Call.present 1] }
            [quitPoll 0]) ∧
      (sampleDrained.done = true →
        mainLoop (0 + 1) loopStart [keyDownPoll 0x41, emptyPoll, quitPoll 0] =
          Progress.completed sampleDrained [quitPoll 0]) :=
  ⟨rfl, by decide,
    present_iff_drained 0 loopStart sampleDrained [keyDownPoll 0x41, emptyPoll, quitPoll 0]
      [quitPoll 0] rfl (by decide)⟩

/-! ## WindowProc -/

theorem WindowProc_escape (keyboard : List Bool) :
    WindowProc keyboard WM_KEYDOWN VK_ESCAPE =
      { calls := [Call.PostQuitMessage 0, Call.DefWindowProc WM_KEYDOWN VK_ESCAPE],
        keyboard := some keyboard } := by
  simp [WindowProc, WM_KEYDOWN, WM_DESTROY]

theorem pumpMessages_to_quit (more : List Poll) :
    ∀ (s : LoopState) (q : Poll) (rest : List Poll),
      s.done = false →
      (∀ p ∈ more, p.messageAvailable = true ∧ p.msg.message ≠ WM_QUIT) →
      q.msg.message = WM_QUIT →
      pumpMessages s (more ++ q :: rest) =
        Progress.completed
          { done := true, errorCode := wrapInt32 q.msg.wParam,
            trace := s.trace ++ ((more ++ [q]).map pumpCalls).flatten } rest := by
  induction more with
  | nil =>
    intro s q rest _ _ hq
    simp [pumpMessages, pumpOnce_done_of_quit s q hq]
  | cons p more ih =>
    intro s q rest hs hmore hq
    obtain ⟨ha, hp⟩ := hmore p (List.mem_cons_self _ _)
    have hmore1 : ∀ x ∈ more, x.messageAvailable = true ∧ x.msg.message ≠ WM_QUIT :=
      fun x hx => hmore x (List.mem_cons_of_mem _ hx)
    have hstep : pumpMessages s (p :: (more ++ q :: rest)) =
        pumpMessages { s with trace := s.trace ++ pumpCalls p } (more ++ q :: rest) := by
      simp [pumpMessages, pumpOnce_of_not_quit s p hp, ha, hs]
    rw [List.cons_append, hstep, ih _ q rest (by exact hs) hmore1 hq]
    simp [List.append_assoc]

theorem pollCalls_of_available (ps : List Poll) (h : ∀ p ∈ ps, p.messageAvailable = true) :
    (ps.map pollCalls).flatten = (ps.map pumpCalls).flatten := by
  induction ps with
  | nil => rfl
  | cons p ps ih =>
    have hp := h p (List.mem_cons_self _ _)
    have hps : ∀ x ∈ ps, x.messageAvailable = true :=
      fun x hx => h x (List.mem_cons_of_mem _ hx)
    simp [pollCalls, hp, ih hps]

/-- C9: let the pump deliver a retrieved `WM_KEYDOWN` message with key code
`VK_ESCAPE`, and let the platform then hand out, without ever reporting an empty
queue, the messages still pending and the quit message carrying the code that
`WindowProc` posted.  Then `WindowProc` posts a quit with code 0 and leaves the
keyboard array as it was; the drain that retrieved the key message also
retrieves the quit message and ends with `done` set and `errorCode` 0; from the
key message on the loop calls only the three calls of the drain, never
`present`; and `WinMain` returns 0. -/
theorem escape_quits (vk : Vulkan) (r : Results) (keyboard : List Bool)
    (pre more rest : List Poll) (esc quit : Poll)
    (hpro : (prologue r).control = Control.proceed)
    (hrec : (recordCommandBuffers vk r).control = Control.proceed)
    (hpre : ∀ p ∈ pre, p.msg.message ≠ WM_QUIT)
    (hesc : esc.messageAvailable = true ∧ esc.msg.message = WM_KEYDOWN ∧
      esc.msg.wParam = VK_ESCAPE)
    (hmore : ∀ p ∈ more, p.messageAvailable = true ∧ p.msg.message ≠ WM_QUIT)
    (hquit : quit.msg.message = WM_QUIT)
    (hcode : Call.PostQuitMessage (quit.msg.wParam : Int) ∈
      (WindowProc keyboard esc.msg.message esc.msg.wParam).calls) :
    WindowProc keyboard esc.msg.message esc.msg.wParam =
      { calls := [Call.PostQuitMessage 0, Call.DefWindowProc WM_KEYDOWN VK_ESCAPE],
        keyboard := some keyboard } ∧
    (∀ s : LoopState, s.done = false →
      pumpMessages s (esc :: more ++ quit :: rest) =
        Progress.completed
          { done := true, errorCode := 0,
            trace := s.trace ++ ((esc :: more ++ [quit]).map pumpCalls).flatten } rest) ∧
    (frameLoop (pre ++ esc :: more ++ quit :: rest)).trace =
      (pre.map pollCalls).flatten ++ ((esc :: more ++ [quit]).map pumpCalls).flatten ++
        [Call.arrfree] ∧
    Call.present 1 ∉ ((esc :: more ++ [quit]).map pumpCalls).flatten ∧
    (WinMain vk r (pre ++ esc :: more ++ quit :: rest)).control = Control.returned 0 := by
  obtain ⟨hea, hem, hew⟩ := hesc
  have hwp := WindowProc_escape keyboard
  rw [hem, hew] at hcode ⊢
  rw [hwp] at hcode
  have hzero : quit.msg.wParam = 0 := by
    simp at hcode
    exact_mod_cast hcode
  have hw : wrapInt32 (quit.msg.wParam : Int) = 0 := by
    rw [hzero]; decide
  have hne : esc.msg.message ≠ WM_QUIT := by
    rw [hem]; decide
  have hmore1 : ∀ p ∈ esc :: more, p.messageAvailable = true ∧ p.msg.message ≠ WM_QUIT := by
    intro p hp
    rcases List.mem_cons.mp hp with h | h
    · subst h; exact ⟨hea, hne⟩
    · exact hmore p h
  have hpre1 : ∀ p ∈ pre ++ esc :: more, p.msg.message ≠ WM_QUIT := by
    intro p hp
    rcases List.mem_append.mp hp with h | h
    · exact hpre p h
    · exact (hmore1 p h).2
  have hsplit : pre ++ esc :: more ++ quit :: rest = (pre ++ esc :: more) ++ quit :: rest := by
    simp
  refine ⟨hwp, ?_, ?_, ?_, ?_⟩
  · intro s hs
    have h := pumpMessages_to_quit (esc :: more) s quit rest hs hmore1 hquit
    rw [hw] at h
    simpa using h
  · rw [hsplit, frameLoop_to_quit _ quit rest hpre1 hquit]
    simp only [List.map_append, List.flatten_append]
    rw [pollCalls_of_available (esc :: more) (fun p hp => (hmore1 p hp).1)]
    simp [List.append_assoc]
  · simp [pumpCalls]
  · rw [hsplit, WinMain_returns_quit_payload vk r _ quit rest hpro hrec hpre1 hquit, hw]

theorem escape_quits_witness :
    (prologue allSucceed).control = Control.proceed ∧
    (recordCommandBuffers sampleVk allSucceed).control = Control.proceed ∧
    (∀ p ∈ [emptyPoll], p.msg.message ≠ WM_QUIT) ∧
    (∀ p ∈ [charPoll], p.messageAvailable = true ∧ p.msg.message ≠ WM_QUIT) ∧
    (WindowProc keyboardInit (keyDownPoll VK_ESCAPE).msg.message
        (keyDownPoll VK_ESCAPE).msg.wParam =
      { calls := [Call.PostQuitMessage 0, Call.DefWindowProc WM_KEYDOWN VK_ESCAPE],
        keyboard := some keyboardInit } ∧
    (∀ s : LoopState, s.done = false →
      pumpMessages s (keyDownPoll VK_ESCAPE :: [charPoll] ++ quitPoll 0 :: []) =
        Progress.completed
          { done := true, errorCode := 0,
            trace := s.trace ++
              ((keyDownPoll VK_ESCAPE :: [charPoll] ++ [quitPoll 0]).map pumpCalls).flatten }
          []) ∧
    (frameLoop ([emptyPoll] ++ keyDownPoll VK_ESCAPE :: [charPoll] ++ quitPoll 0 :: [])).trace =
      ([emptyPoll].map pollCalls).flatten ++
        ((keyDownPoll VK_ESCAPE :: [charPoll] ++ [quitPoll 0]).map pumpCalls).flatten ++
        [Call.arrfree] ∧
    Call.present 1 ∉
      ((keyDownPoll VK_ESCAPE :: [charPoll] ++ [quitPoll 0]).map pumpCalls).flatten ∧
    (WinMain sampleVk allSucceed
        ([emptyPoll] ++ keyDownPoll VK_ESCAPE :: [charPoll] ++ quitPoll 0 :: [])).control =
      Control.returned 0) :=
  ⟨prologue_allSucceed, recordCommandBuffers_sample, by decide, by decide,
    escape_quits sampleVk allSucceed keyboardInit [emptyPoll] [charPoll] []
      (keyDownPoll VK_ESCAPE) (quitPoll 0) prologue_allSucceed recordCommandBuffers_sample
      (by decide) ⟨rfl, rfl, rfl⟩ (by decide) rfl
      (by simp [keyDownPoll, quitPoll, WindowProc_escape])⟩

theorem WindowProc_keydown_in_range (keyboard : List Bool) (k : Nat)
    (hk : k < VK_OEM_CLEAR) (hesc : k ≠ VK_ESCAPE) :
    WindowProc keyboard WM_KEYDOWN k =
      { calls := [Call.DefWindowProc WM_KEYDOWN k], keyboard := some (keyboard.set k true) } := by
  have h16 : toUInt16 k = k := by
    unfold toUInt16
    apply Nat.mod_eq_of_lt
    unfold VK_OEM_CLEAR at hk
    omega
  simp [WindowProc, WM_KEYDOWN, WM_DESTROY, hesc, writeKey, h16, hk]

theorem WindowProc_keyup_in_range (keyboard : List Bool) (k : Nat) (hk : k < VK_OEM_CLEAR) :
    WindowProc keyboard WM_KEYUP k =
      { calls := [Call.DefWindowProc WM_KEYUP k], keyboard := some (keyboard.set k false) } := by
  have h16 : toUInt16 k = k := by
    unfold toUInt16
    apply Nat.mod_eq_of_lt
    unfold VK_OEM_CLEAR at hk
    omega
  simp [WindowProc, WM_KEYUP, WM_KEYDOWN, WM_DESTROY, writeKey, h16, hk]

/-- C10, at its failing input: the key code `VK_OEM_CLEAR` = 0xFE lies in the
range 0x01..0xFE and is not `VK_ESCAPE`, yet the index `(uint16_t)0xFE` = 254 is
not below the 254 entries of the keyboard array, so the write of `WindowProc` on
`WM_KEYDOWN` and on `WM_KEYUP` falls outside the array, whatever the array
holds. -/
theorem keyboard_write_out_of_bounds (keyboard : List Bool) :
    (0x01 ≤ VK_OEM_CLEAR ∧ VK_OEM_CLEAR ≤ 0xFE ∧ VK_OEM_CLEAR ≠ VK_ESCAPE) ∧
    keyboardInit.length = VK_OEM_CLEAR ∧
    ¬ (toUInt16 VK_OEM_CLEAR < keyboardInit.length) ∧
    (WindowProc keyboard WM_KEYDOWN VK_OEM_CLEAR).keyboard = none ∧
    (WindowProc keyboard WM_KEYUP VK_OEM_CLEAR).keyboard = none := by
  have hlen : keyboardInit.length = VK_OEM_CLEAR := List.length_replicate _ _
  refine ⟨by decide, hlen, by rw [hlen]; decide, ?_, ?_⟩
  · simp [WindowProc, WM_KEYDOWN, WM_DESTROY, VK_ESCAPE, VK_OEM_CLEAR, writeKey, toUInt16]
  · simp [WindowProc, WM_KEYUP, WM_KEYDOWN, WM_DESTROY, VK_OEM_CLEAR, writeKey, toUInt16]

/-! ## The recording loop -/

theorem recordedFrames_succ (vk : Vulkan) (n i : Nat) :
    recordedFrames vk (n + 1) i = recordFrame vk i ++ recordedFrames vk n (i + 1) := by
  simp [recordedFrames, List.range'_succ]

theorem recordLoop_of_success (vk : Vulkan) (r : Results) (n : Nat) :
    ∀ i : Nat, (∀ k, i ≤ k → k < i + n → r.endFrameResult k = VK_SUCCESS) →
      recordLoop vk r n i = calls (recordedFrames vk n i) := by
  induction n with
  | zero => intro i _; simp [recordLoop, recordedFrames]
  | succ n ih =>
    intro i h
    have h0 : r.endFrameResult i = VK_SUCCESS := h i (Nat.le_refl _) (by omega)
    have h1 : ∀ k, i + 1 ≤ k → k < i + 1 + n → r.endFrameResult k = VK_SUCCESS :=
      fun k hk1 hk2 => h k (by omega) (by omega)
    rw [recordLoop, ih (i + 1) h1, recordedFrames_succ]
    simp [VKCHECK, h0, Run.seq, calls]

theorem foldl_recordStep_recordFrame (vk : Vulkan) (i : Nat) (held : List Call) :
    (recordFrame vk i).foldl (recordStep (CommandBuffer.frameCmd i)) held = frameCommands vk i := by
  simp [recordFrame, frameCommands, recordStep, Call.begins, Call.recordsInto]

theorem foldl_recordStep_other (vk : Vulkan) (c : CommandBuffer) (i : Nat) (held : List Call)
    (h : c ≠ CommandBuffer.frameCmd i) :
    (recordFrame vk i).foldl (recordStep c) held = held := by
  have h1 : ¬ (CommandBuffer.frameCmd i = c) := fun e => h e.symm
  simp [recordFrame, recordStep, Call.begins, Call.recordsInto, h1]

theorem foldl_recordStep_untouched (vk : Vulkan) (c : CommandBuffer) (n : Nat) :
    ∀ (i : Nat) (held : List Call),
      (∀ k, i ≤ k → k < i + n → c ≠ CommandBuffer.frameCmd k) →
      (recordedFrames vk n i).foldl (recordStep c) held = held := by
  induction n with
  | zero => intro i held _; simp [recordedFrames]
  | succ n ih =>
    intro i held h
    rw [recordedFrames_succ, List.foldl_append,
      foldl_recordStep_other vk c i held (h i (Nat.le_refl _) (by omega))]
    exact ih (i + 1) held (fun k hk1 hk2 => h k (by omega) (by omega))

theorem foldl_recordStep_recordedFrames (vk : Vulkan) (n : Nat) :
    ∀ (i j : Nat) (held : List Call), i ≤ j → j < i + n →
      (recordedFrames vk n i).foldl (recordStep (CommandBuffer.frameCmd j)) held =
        frameCommands vk j := by
  induction n with
  | zero => intro i j held h1 h2; omega
  | succ n ih =>
    intro i j held h1 h2
    rw [recordedFrames_succ, List.foldl_append]
    by_cases hij : j = i
    · subst hij
      rw [foldl_recordStep_recordFrame]
      apply foldl_recordStep_untouched
      intro k hk1 _ hc
      injection hc with hc
      omega
    · exact ih (i + 1) j _ (by omega) (by omega)

theorem begins_recordedFrames (vk : Vulkan) (n : Nat) :
    ∀ i : Nat, (recordedFrames vk n i).filterMap Call.begins =
      (List.range' i n).map CommandBuffer.frameCmd := by
  induction n with
  | zero => intro i; simp [recordedFrames]
  | succ n ih =>
    intro i
    rw [recordedFrames_succ, List.filterMap_append, ih (i + 1), List.range'_succ]
    simp [recordFrame, Call.begins]

theorem recordCommandBuffers_of_success (vk : Vulkan) (r : Results)
    (hN : vk.swapImagesSize < 2 ^ 32)
    (hok : ∀ i, i < vk.swapImagesSize → r.endFrameResult i = VK_SUCCESS) :
    recordCommandBuffers vk r =
      calls ([ Call.uploadMesh vk.queueFamily 120,
               Call.initVKPipeline "default" Pipeline.defaultPipeline,
               Call.updateCombinedImageSampler Pipeline.defaultPipeline 0 1,
               Call.arrsetlen vk.swapImagesSize,
               Call.createCommandBuffers CommandPool.cmdPool vk.swapImagesSize
                 (CommandBuffer.frameCmd 0) ] ++ recordedFrames vk vk.swapImagesSize 0) := by
  have hcount : framebufferCount vk = vk.swapImagesSize := by
    unfold framebufferCount toUInt32
    exact Nat.mod_eq_of_lt hN
  rw [recordCommandBuffers, hcount,
    recordLoop_of_success vk r vk.swapImagesSize 0 (fun k _ hk => hok k (by omega))]
  simp [block, Run.seq, calls]

theorem recordedIn_recordCommandBuffers (vk : Vulkan) (r : Results)
    (hN : vk.swapImagesSize < 2 ^ 32)
    (hok : ∀ i, i < vk.swapImagesSize → r.endFrameResult i = VK_SUCCESS)
    (i : Nat) (hi : i < vk.swapImagesSize) :
    recordedIn (recordCommandBuffers vk r).trace (CommandBuffer.frameCmd i) =
      frameCommands vk i := by
  rw [recordCommandBuffers_of_success vk r hN hok]
  simp only [calls, recordedIn, List.foldl_append]
  exact foldl_recordStep_recordedFrames vk _ 0 i _ (Nat.zero_le _) (by omega)

theorem retarget_frameCommands (vk : Vulkan) (i j : Nat) :
    (frameCommands vk i).map (Call.retarget j) = frameCommands vk j := by
  simp [frameCommands, Call.retarget, frameBeginInfo]

/-- C8: for a swapchain image count `N` (a `uint32_t` of the API), when every
`vkEndCommandBuffer` of the loop succeeds, the recording allocates `N` command
buffers and begins a recording on exactly `cmds[0]`, ..., `cmds[N-1]`, once
each and in this order.  Afterwards `cmds[i]` holds exactly: begin render pass
on framebuffer `i` with the two clear values colour and depth/stencil (1, 0),
bind graphics pipeline, bind one vertex buffer at offset 0, bind one descriptor
set, one non-indexed draw of 6 vertices and 1 instance, end render pass.  Any
recording is any other one with the command buffer and the framebuffer
replaced. -/
theorem frame_recordings (vk : Vulkan) (r : Results)
    (hN : vk.swapImagesSize < 2 ^ 32)
    (hok : ∀ i, i < vk.swapImagesSize → r.endFrameResult i = VK_SUCCESS) :
    (recordCommandBuffers vk r).control = Control.proceed ∧
    Call.createCommandBuffers CommandPool.cmdPool vk.swapImagesSize (CommandBuffer.frameCmd 0)
      ∈ (recordCommandBuffers vk r).trace ∧
    (recordCommandBuffers vk r).trace.filterMap Call.begins =
      (List.range vk.swapImagesSize).map CommandBuffer.frameCmd ∧
    (∀ i, i < vk.swapImagesSize →
      recordedIn (recordCommandBuffers vk r).trace (CommandBuffer.frameCmd i) =
        [ Call.vkCmdBeginRenderPass (CommandBuffer.frameCmd i)
            { sType := VK_STRUCTURE_TYPE_RENDER_PASS_BEGIN_INFO,
              clearValueCount := 2,
              clearValues := [VkClearValue.color 0 0 0 0, VkClearValue.depthStencil 1 0],
              framebuffer := i, renderAreaExtent := vk.swapExtent,
              renderAreaOffset := (0, 0), renderPass := vk.renderPass }
            VK_SUBPASS_CONTENTS_INLINE,
          Call.vkCmdBindPipeline (CommandBuffer.frameCmd i) VK_PIPELINE_BIND_POINT_GRAPHICS
            Pipeline.defaultPipeline,
          Call.vkCmdBindVertexBuffers (CommandBuffer.frameCmd i) 0 1 Buffer.meshVBuff [0],
          Call.vkCmdBindDescriptorSets (CommandBuffer.frameCmd i)
            VK_PIPELINE_BIND_POINT_GRAPHICS Pipeline.defaultPipeline 0 1
            Pipeline.defaultPipeline 0,
          Call.vkCmdDraw (CommandBuffer.frameCmd i) 6 1 0 0,
          Call.vkCmdEndRenderPass (CommandBuffer.frameCmd i) ]) ∧
    (∀ i j, i < vk.swapImagesSize → j < vk.swapImagesSize →
      (recordedIn (recordCommandBuffers vk r).trace (CommandBuffer.frameCmd i)).map
          (Call.retarget j) =
        recordedIn (recordCommandBuffers vk r).trace (CommandBuffer.frameCmd j)) := by
  refine ⟨?_, ?_, ?_, ?_, ?_⟩
  · rw [recordCommandBuffers_of_success vk r hN hok]; rfl
  · rw [recordCommandBuffers_of_success vk r hN hok]; simp [calls]
  · rw [recordCommandBuffers_of_success vk r hN hok]
    simp only [calls, List.filterMap_append, begins_recordedFrames, List.range_eq_range']
    simp [Call.begins]
  · intro i hi
    rw [recordedIn_recordCommandBuffers vk r hN hok i hi]
    rfl
  · intro i j hi hj
    rw [recordedIn_recordCommandBuffers vk r hN hok i hi,
      recordedIn_recordCommandBuffers vk r hN hok j hj, retarget_frameCommands]

theorem frame_recordings_witness :
    sampleVk.swapImagesSize < 2 ^ 32 ∧
    (∀ i, i < sampleVk.swapImagesSize → allSucceed.endFrameResult i = VK_SUCCESS) ∧
    (recordCommandBuffers sampleVk allSucceed).control = Control.proceed ∧
    (recordCommandBuffers sampleVk allSucceed).trace.filterMap Call.begins =
      (List.range sampleVk.swapImagesSize).map CommandBuffer.frameCmd ∧
    (recordedIn (recordCommandBuffers sampleVk allSucceed).trace
        (CommandBuffer.frameCmd 0)).map (Call.retarget 1) =
      recordedIn (recordCommandBuffers sampleVk allSucceed).trace (CommandBuffer.frameCmd 1) :=
  ⟨by decide, fun _ _ => rfl,
    (frame_recordings sampleVk allSucceed (by decide) (fun _ _ => rfl)).1,
    (frame_recordings sampleVk allSucceed (by decide) (fun _ _ => rfl)).2.2.1,
    (frame_recordings sampleVk allSucceed (by decide) (fun _ _ => rfl)).2.2.2.2 0 1
      (by decide) (by decide)⟩

/-! ## Result codes of the compute path -/

/-- C6, as stated, fails: when both submissions of the compute path return
`VK_ERROR_DEVICE_LOST`, `WinMain` still runs to the main loop and returns the
payload of the quit message; it logs no fatal line on the way. -/
theorem failed_submission_continues :
    failingSubmits.dispatchSubmitResult ≠ VK_SUCCESS ∧
    failingSubmits.releaseSubmitResult ≠ VK_SUCCESS ∧
    (WinMain sampleVk failingSubmits [quitPoll 0]).control = Control.returned 0 ∧
    (WinMain sampleVk failingSubmits [quitPoll 0]).trace.all (fun c => !c.isFatal) = true := by
  have hpro : (prologue failingSubmits).control = Control.proceed := rfl
  have hrec : (recordCommandBuffers sampleVk failingSubmits).control = Control.proceed := by
    simp [recordCommandBuffers, framebufferCount, toUInt32, sampleVk, recordLoop, block,
      Run.seq, calls, VKCHECK, failingSubmits, allSucceed]
  have hloop := frameLoop_to_quit [] (quitPoll 0) [] (by simp) rfl
  rw [List.nil_append] at hloop
  have hw : wrapInt32 ((quitPoll 0).msg.wParam : Int) = 0 := by decide
  rw [hw] at hloop
  refine ⟨by decide, by decide, ?_, ?_⟩
  · rw [WinMain_of_proceed _ _ _ hpro hrec, hloop]
  · rw [WinMain_of_proceed _ _ _ hpro hrec, hloop, prologue_of_proceed _ hpro,
      oneShotInit_trace]
    simp [prologueCalls, computePhase, acquirePhase, uploadTexture, recordCommandBuffers,
      framebufferCount, toUInt32, sampleVk, recordLoop, recordFrame, block, Run.seq, calls,
      discard, VKCHECK, failingSubmits, allSucceed, pumpCalls, Call.isFatal]

/-- C6, amended: whatever the calls of the compute path return, the path makes
the same calls as when they all succeed, logs no fatal line and falls through;
each of the two submissions is followed directly by the queue-idle wait. -/
theorem submission_results_discarded (vk : Vulkan) (r : Results) :
    computePhase vk r = computePhase vk allSucceed ∧
    (computePhase vk r).control = Control.proceed ∧
    (computePhase vk r).trace.all (fun c => !c.isFatal) = true ∧
    (computePhase vk r).trace.drop 10 =
      [ Call.vkQueueSubmit Queue.computeQueue 1 (submitInfo CommandBuffer.computeCmd),
        Call.vkQueueWaitIdle Queue.computeQueue,
        Call.vkBeginCommandBuffer CommandBuffer.computeCmd
          VK_STRUCTURE_TYPE_COMMAND_BUFFER_BEGIN_INFO 0,
        Call.vkCmdPipelineBarrier CommandBuffer.computeCmd
          VK_PIPELINE_STAGE_COMPUTE_SHADER_BIT VK_PIPELINE_STAGE_ALL_GRAPHICS_BIT 0 0
          [releaseBarrier vk] 0,
        Call.vkEndCommandBuffer CommandBuffer.computeCmd,
        Call.vkQueueSubmit Queue.computeQueue 1 (submitInfo CommandBuffer.computeCmd),
        Call.vkQueueWaitIdle Queue.computeQueue ] := by
  refine ⟨rfl, rfl, ?_, ?_⟩
  · simp [computePhase, block, Run.seq, calls, discard, Call.isFatal]
  · simp [computePhase, block, Run.seq, calls, discard]

end VkCompute
